import Mathlib

/-!
Verification of the Go voice-agent WebSocket proxy (`main.go`, the backend
server document: session-token issuance and validation, subprotocol
authentication, upstream dial, the two forwarding loops, close-code
normalization, coordinated teardown, and graceful shutdown).

The Go code is shallowly embedded: pure helpers become Lean functions,
the handler's sequential effects become explicit action traces, and the
third-party JWT library (golang-jwt/v5, HS256) is modelled with an ideal
MAC whose tag records the signing key and message, so that a tag verifies
against a secret exactly when it was produced with that same secret.
Clock reads (`time.Now()`) are explicit `Nat` parameters, one per call
site in the source.
-/

namespace VoiceAgent

/-! ## Close codes (`reservedCloseCodes`, `getSafeCloseCode`) -/

/-- `websocket.CloseNormalClosure` (RFC 6455 normal closure). -/
def closeNormalClosure : Int := 1000

/-- `websocket.CloseGoingAway`. -/
def closeGoingAway : Int := 1001

/-- The `reservedCloseCodes` map from the source: WebSocket close codes
that cannot be set by applications (1004, 1005, 1006, 1015). Membership
lookup `reservedCloseCodes[code]` becomes this Boolean function. -/
def reservedCloseCodes (code : Int) : Bool :=
  code == 1004 || code == 1005 || code == 1006 || code == 1015

/-- `getSafeCloseCode` from the source: returns `code` when it is in
1000..4999 and not reserved, else `websocket.CloseNormalClosure`. -/
def getSafeCloseCode (code : Int) : Int :=
  if 1000 ≤ code ∧ code ≤ 4999 ∧ reservedCloseCodes code = false then
    code
  else
    closeNormalClosure

/-! ## JWT model (`issueToken`, `validateToken`) -/

/-- A signing secret (`[]byte` in the source). -/
abbrev Secret := List Nat

/-- `jwt.RegisteredClaims` as populated by this server: `IssuedAt` and
`ExpiresAt`, in seconds (`jwt.NewNumericDate`). -/
structure TokenClaims where
  issuedAt : Nat
  expiresAt : Nat
deriving DecidableEq, Repr

/-- Signing algorithms relevant to the embedding: `HS256` (the HMAC
method used by `issueToken`) and a non-HMAC representative (`RS256`),
standing for any method rejected by the key function's HMAC check. -/
inductive Alg
  | HS256
  | RS256
deriving DecidableEq, Repr

/-- Whether the method is `*jwt.SigningMethodHMAC`. -/
def isHMAC : Alg → Bool
  | .HS256 => true
  | .RS256 => false

/-- The signing input of a token: header algorithm plus claims. -/
structure TokenPayload where
  alg : Alg
  claims : TokenClaims
deriving DecidableEq, Repr

/-- An ideal MAC tag: determined exactly by the signing key and the
signed message, so verification against a secret succeeds iff the tag
was produced with that secret over that payload. -/
structure MacTag where
  key : Secret
  msg : TokenPayload
deriving DecidableEq, Repr

/-- HMAC-SHA256 signing, idealised. -/
def macSign (secret : Secret) (p : TokenPayload) : MacTag :=
  ⟨secret, p⟩

/-- A structurally well-formed compact JWT: payload plus signature. -/
structure SignedToken where
  payload : TokenPayload
  sig : MacTag
deriving DecidableEq, Repr

/-- A token string: either garbage that does not parse as a compact JWT,
or the encoding of a signed token. -/
inductive TokenString
  | malformed (raw : String)
  | wellFormed (t : SignedToken)
deriving DecidableEq, Repr

/-- `jwtExpiry = time.Hour`, in seconds. -/
def jwtExpiry : Nat := 3600

/-- `(*jwt.Token).SignedString`: succeeds for HMAC methods with a byte
key; errors otherwise (key type mismatch in the library). -/
def signedString (p : TokenPayload) (secret : Secret) : Except String TokenString :=
  if isHMAC p.alg then
    .ok (.wellFormed ⟨p, macSign secret p⟩)
  else
    .error "key is invalid"

/-- `issueToken` from the source: builds `RegisteredClaims` with
`IssuedAt = time.Now()` (first clock read, `now1`) and
`ExpiresAt = time.Now().Add(jwtExpiry)` (second clock read, `now2`),
then signs with HS256. -/
def issueToken (now1 now2 : Nat) (secret : Secret) : Except String TokenString :=
  let claims : TokenClaims := { issuedAt := now1, expiresAt := now2 + jwtExpiry }
  signedString { alg := .HS256, claims := claims } secret

/-- Errors produced by `jwt.Parse` in the paths this server exercises. -/
inductive JwtError
  | malformedToken
  | unexpectedSigningMethod
  | signatureInvalid
  | tokenExpired
deriving DecidableEq, Repr

/-- `jwt.Parse` with this server's key function: parse the compact form,
reject non-HMAC methods (the key function's check), verify the HMAC
signature against the secret, then validate claims — the v5 validator
accepts iff `now` is strictly before `ExpiresAt`. -/
def jwtParse (ts : TokenString) (secret : Secret) (now : Nat) : Except JwtError SignedToken :=
  match ts with
  | .malformed _ => .error .malformedToken
  | .wellFormed t =>
    if isHMAC t.payload.alg = false then .error .unexpectedSigningMethod
    else if t.sig ≠ macSign secret t.payload then .error .signatureInvalid
    else if now < t.payload.claims.expiresAt then .ok t
    else .error .tokenExpired

/-- `validateToken` from the source: runs `jwt.Parse` and returns its
error, discarding the parsed token on success. -/
def validateToken (ts : TokenString) (secret : Secret) (now : Nat) : Except JwtError Unit :=
  match jwtParse ts secret now with
  | .ok _ => .ok ()
  | .error e => .error e

/-! ## Subprotocol authentication (`validateWsToken`) -/

/-- One proposed `Sec-WebSocket-Protocol` candidate: either a string
without the fixed `access_token.` lead-in, or one with it, carrying the
embedded token text after trimming. -/
inductive Subprotocol
  | other (s : String)
  | accessToken (ts : TokenString)
deriving DecidableEq, Repr

/-- The loop body test in `validateWsToken`: the candidate carries the
`access_token.` lead-in and its trimmed token validates. -/
def validCandidate (p : Subprotocol) (secret : Secret) (now : Nat) : Bool :=
  match p with
  | .other _ => false
  | .accessToken ts =>
    match validateToken ts secret now with
    | .ok _ => true
    | .error _ => false

/-- `validateWsToken` from the source: scans the candidate list in order
and returns the first candidate that both carries the lead-in and whose
embedded token validates (`none` models the empty-string failure
result). A matching candidate with an invalid token does not stop the
scan — the loop continues with later candidates. -/
def validateWsToken (protocols : List Subprotocol) (secret : Secret) (now : Nat) :
    Option Subprotocol :=
  match protocols with
  | [] => none
  | p :: rest =>
    if validCandidate p secret now then some p
    else validateWsToken rest secret now

/-- Outcome of the authentication stage of `handleVoiceAgent`: either an
HTTP 401 with no connection created, or an upgrade echoing the accepted
candidate in `Sec-WebSocket-Protocol`. -/
inductive AuthResult
  | unauthorized
  | upgraded (echoed : Subprotocol)
deriving DecidableEq, Repr

/-- The authentication stage of `handleVoiceAgent`: reject with 401 when
`validateWsToken` returns the empty result, else upgrade and echo the
accepted candidate. -/
def handleVoiceAgentAuth (protocols : List Subprotocol) (secret : Secret) (now : Nat) :
    AuthResult :=
  match validateWsToken protocols secret now with
  | none => .unauthorized
  | some p => .upgraded p

/-- Modelled from the spec: the spec's own auth rule, for comparison
with `handleVoiceAgentAuth`. It extracts the first candidate matching
the lead-in convention and rejects when that single candidate's
embedded token fails validation. -/
def firstMatchingCandidate (protocols : List Subprotocol) : Option Subprotocol :=
  protocols.find? fun p =>
    match p with
    | .accessToken _ => true
    | .other _ => false

/-- Modelled from the spec: authentication as the spec states it — only
the first lead-in-matching candidate is validated; if it fails, the
request is rejected. -/
def specAuth (protocols : List Subprotocol) (secret : Secret) (now : Nat) : AuthResult :=
  match firstMatchingCandidate protocols with
  | none => .unauthorized
  | some p => if validCandidate p secret now then .upgraded p else .unauthorized

/-! ## Frames and the forwarding loops -/

/-- A WebSocket message type: `websocket.TextMessage` or
`websocket.BinaryMessage`. -/
inductive FrameType
  | text
  | binary
deriving DecidableEq, Repr

/-- One relayed message: its type tag and payload bytes. -/
structure Frame where
  messageType : FrameType
  data : List Nat
deriving DecidableEq, Repr

/-- The structured error envelope marshalled on dial failure. -/
structure ErrorEnvelope where
  etype : String
  description : String
  code : String
deriving DecidableEq, Repr

/-- The envelope written to the client when the Deepgram dial fails. -/
def connectionFailedMsg : ErrorEnvelope :=
  { etype := "Error"
    description := "Failed to establish proxy connection"
    code := "CONNECTION_FAILED" }

/-- Observable actions of `handleVoiceAgent` and its forwarding loops,
in source order: registry store/delete on `activeConnections`, the
upstream dial attempt (with its outcome), writes and closes on the two
legs. -/
inductive Action
  | storeRegistry
  | deleteRegistry
  | dialUpstream (ok : Bool)
  | writeClientText (e : ErrorEnvelope)
  | writeClientFrame (f : Frame)
  | writeClientClose (code : Int)
  | closeClient
  | writeUpstreamFrame (f : Frame)
  | writeUpstreamClose (code : Int) (reason : String)
  | closeUpstream
deriving DecidableEq, Repr

/-- The outcome of one `ReadMessage` call: a frame, or an error that may
carry a `*websocket.CloseError` code. -/
inductive ReadResult
  | frame (messageType : FrameType) (data : List Nat)
  | failure (closeErr : Option Int)
deriving DecidableEq, Repr

/-- The close code forwarded to the client by the Deepgram→client loop
when its read fails: defaults to `websocket.CloseNormalClosure`, and
when the error is a `*websocket.CloseError` the code is passed through
`getSafeCloseCode`. -/
def forwardedCloseCode (closeErr : Option Int) : Int :=
  match closeErr with
  | none => closeNormalClosure
  | some c => getSafeCloseCode c

/-- The Deepgram→client forwarding goroutine, run over the stream of
read outcomes on the upstream leg: each frame read is written to the
client with the same type and bytes; on read failure the loop writes a
close frame carrying the (normalized) code and exits. A write failure
only exits the loop early; it never alters a frame, so it is not a
separate input here. An empty stream models a loop still blocked in its
next read. -/
def runUpstreamToClient : List ReadResult → List Action
  | [] => []
  | .frame t d :: rest => .writeClientFrame ⟨t, d⟩ :: runUpstreamToClient rest
  | .failure ce :: _ => [.writeClientClose (forwardedCloseCode ce)]

/-- The client→Deepgram forwarding goroutine: each frame read from the
client is written to upstream with the same type and bytes; on read
failure the loop just exits (no close-code translation on this leg). -/
def runClientToUpstream : List ReadResult → List Action
  | [] => []
  | .frame t d :: rest => .writeUpstreamFrame ⟨t, d⟩ :: runClientToUpstream rest
  | .failure _ :: _ => []

/-- The frames successfully read from a stream before its first
failure: exactly the frames the loop relays. -/
def successFrames : List ReadResult → List Frame
  | [] => []
  | .frame t d :: rest => ⟨t, d⟩ :: successFrames rest
  | .failure _ :: _ => []

/-- The frames written to the client leg, in order. -/
def clientFrameWrites : List Action → List Frame
  | [] => []
  | .writeClientFrame f :: rest => f :: clientFrameWrites rest
  | _ :: rest => clientFrameWrites rest

/-- The frames written to the upstream leg, in order. -/
def upstreamFrameWrites : List Action → List Frame
  | [] => []
  | .writeUpstreamFrame f :: rest => f :: upstreamFrameWrites rest
  | _ :: rest => upstreamFrameWrites rest

/-! ## Session coordination (`handleVoiceAgent` after the upgrade) -/

/-- Which completion channel the single-shot `select` sees first:
`clientDone` (client→Deepgram goroutine exited) or `deepgramDone`
(Deepgram→client goroutine exited). -/
inductive FirstFinisher
  | clientFirst
  | deepgramFirst
deriving DecidableEq, Repr

/-- The branch of the `select` that runs: on `clientDone` the handler
sends a normal-closure close frame to Deepgram and closes the Deepgram
connection; on `deepgramDone` it closes the client connection. -/
def selectBranch : FirstFinisher → List Action
  | .clientFirst =>
    [.writeUpstreamClose closeNormalClosure "Client disconnected", .closeUpstream]
  | .deepgramFirst =>
    [.closeClient]

/-- The coordinator's actions after a successful dial: the chosen
`select` branch, then the single `activeConnections.Delete`. -/
def sessionTeardown (first : FirstFinisher) : List Action :=
  selectBranch first ++ [.deleteRegistry]

/-- The dial-failure path: marshal and write the error envelope as one
text frame, close the client connection, delete it from the registry,
and return (no retry). -/
def onDialFailure : List Action :=
  [.writeClientText connectionFailedMsg, .closeClient, .deleteRegistry]

/-- The sequential actions of the `handleVoiceAgent` goroutine after a
successful upgrade, in source order: store the client connection in
`activeConnections`, attempt the Deepgram dial, then either the
dial-failure path or (after the forwarding goroutines, modelled
separately, signal completion) the coordinated teardown. -/
def handleVoiceAgentBody (dialOk : Bool) (first : FirstFinisher) : List Action :=
  .storeRegistry :: .dialUpstream dialOk ::
    (if dialOk then sessionTeardown first else onDialFailure)

/-- Whether an action is a dial attempt (of either outcome). -/
def isDialAttempt : Action → Bool
  | .dialUpstream _ => true
  | _ => false

/-- Whether an action writes a synthesized text envelope to the client. -/
def isClientTextWrite : Action → Bool
  | .writeClientText _ => true
  | _ => false

/-! ## Graceful shutdown (`gracefulShutdown`) -/

/-- Identity of a registered client connection in `activeConnections`. -/
abbrev ConnId := Nat

/-- Actions of `gracefulShutdown`: per-connection close-frame write and
close, then the bounded `server.Shutdown`. -/
inductive ShutdownAction
  | writeConnClose (c : ConnId) (code : Int) (reason : String)
  | closeConn (c : ConnId)
  | serverShutdown (timeoutSeconds : Nat)
deriving DecidableEq, Repr

/-- The `activeConnections.Range` loop: for each registered connection,
write a close frame with `websocket.CloseGoingAway` and the shutdown
reason, then close the connection. -/
def closeAllConnections (registry : List ConnId) : List ShutdownAction :=
  (registry.map fun c =>
    [ShutdownAction.writeConnClose c closeGoingAway "Server shutting down",
     ShutdownAction.closeConn c]).flatten

/-- `gracefulShutdown` from the source, invoked from `main` on receipt
of SIGTERM/SIGINT: broadcast the going-away close over the registry,
then `server.Shutdown` with a 10-second timeout (stop accepting new
upgrades, wait up to the timeout for in-flight handlers). -/
def gracefulShutdown (registry : List ConnId) : List ShutdownAction :=
  closeAllConnections registry ++ [.serverShutdown 10]

/-! ## Sample data used by witnesses and counterexamples -/

/-- A concrete signing secret. -/
def sampleSecret : Secret := [1]

/-- A different signing secret. -/
def otherSecret : Secret := [2]

/-- A concrete HS256 payload: issued at 0, expiring at 3600. -/
def samplePayload : TokenPayload :=
  { alg := .HS256, claims := { issuedAt := 0, expiresAt := 3600 } }

/-- A token over `samplePayload` signed with `otherSecret`. -/
def forgedToken : SignedToken :=
  { payload := samplePayload, sig := macSign otherSecret samplePayload }

/-- A token over `samplePayload` signed with `sampleSecret`. -/
def goodToken : SignedToken :=
  { payload := samplePayload, sig := macSign sampleSecret samplePayload }

/-- A subprotocol candidate carrying `forgedToken`. -/
def badCandidate : Subprotocol := .accessToken (.wellFormed forgedToken)

/-- A subprotocol candidate carrying `goodToken`. -/
def goodCandidate : Subprotocol := .accessToken (.wellFormed goodToken)

/-! ## Helper lemmas -/

/-- Unfolding equation for `getSafeCloseCode`. -/
theorem getSafeCloseCode_def (c : Int) :
    getSafeCloseCode c =
      if 1000 ≤ c ∧ c ≤ 4999 ∧ reservedCloseCodes c = false then c else 1000 :=
  rfl

/-- `validateToken` succeeds exactly on a well-formed token whose method
is HMAC, whose tag was produced with the checked secret, and whose
expiry lies strictly after `now`. -/
theorem validateToken_ok_iff (ts : TokenString) (secret : Secret) (now : Nat) :
    validateToken ts secret now = .ok () ↔
      ∃ t : SignedToken, ts = .wellFormed t ∧ isHMAC t.payload.alg = true ∧
        t.sig = macSign secret t.payload ∧ now < t.payload.claims.expiresAt := by
  cases ts with
  | malformed raw => simp [validateToken, jwtParse]
  | wellFormed t =>
    by_cases h1 : isHMAC t.payload.alg = true
    · by_cases h2 : t.sig = macSign secret t.payload
      · by_cases h3 : now < t.payload.claims.expiresAt
        · simp [validateToken, jwtParse, h1, h2, h3]
        · simp [validateToken, jwtParse, h1, h2, h3]
      · simp [validateToken, jwtParse, h1, h2]
    · have h1f : isHMAC t.payload.alg = false := by
        cases hv : isHMAC t.payload.alg
        · rfl
        · exact absurd hv h1
      simp [validateToken, jwtParse, h1f]

/-! ## Claim theorems -/

/-- C1: every reserved close code (1004, 1005, 1006, 1015) observed on
the upstream leg is written to the client as 1000, and every other
valid code in 1000..4999 is forwarded unchanged. -/
theorem upstreamCloseCode_forwarding (c : Int) :
    ((c = 1004 ∨ c = 1005 ∨ c = 1006 ∨ c = 1015) →
      forwardedCloseCode (some c) = 1000) ∧
    (1000 ≤ c → c ≤ 4999 → c ≠ 1004 → c ≠ 1005 → c ≠ 1006 → c ≠ 1015 →
      forwardedCloseCode (some c) = c) := by
  constructor
  · rintro (rfl | rfl | rfl | rfl) <;> decide
  · intro h1 h2 h3 h4 h5 h6
    have hres : reservedCloseCodes c = false := by
      simp only [reservedCloseCodes, Bool.or_eq_false_iff, beq_eq_false_iff_ne, ne_eq]
      exact ⟨⟨⟨h3, h4⟩, h5⟩, h6⟩
    show getSafeCloseCode c = c
    rw [getSafeCloseCode_def, if_pos ⟨h1, h2, hres⟩]

/-- Witness for C1: 1006 is rewritten to 1000; 3000 passes unchanged. -/
theorem upstreamCloseCode_forwarding_witness :
    forwardedCloseCode (some 1006) = 1000 ∧ forwardedCloseCode (some 3000) = 3000 :=
  ⟨(upstreamCloseCode_forwarding 1006).1 (by decide),
   (upstreamCloseCode_forwarding 3000).2 (by decide) (by decide) (by decide)
     (by decide) (by decide) (by decide)⟩

/-- C10: `getSafeCloseCode` is total with output in 1000..4999 and never
reserved, is idempotent, and maps every out-of-range input to 1000. -/
theorem getSafeCloseCode_total_idempotent (c : Int) :
    1000 ≤ getSafeCloseCode c ∧ getSafeCloseCode c ≤ 4999 ∧
    getSafeCloseCode c ≠ 1004 ∧ getSafeCloseCode c ≠ 1005 ∧
    getSafeCloseCode c ≠ 1006 ∧ getSafeCloseCode c ≠ 1015 ∧
    getSafeCloseCode (getSafeCloseCode c) = getSafeCloseCode c ∧
    (¬ (1000 ≤ c ∧ c ≤ 4999) → getSafeCloseCode c = 1000) := by
  by_cases h : 1000 ≤ c ∧ c ≤ 4999 ∧ reservedCloseCodes c = false
  · have hc : getSafeCloseCode c = c := by rw [getSafeCloseCode_def, if_pos h]
    have hne : c ≠ 1004 ∧ c ≠ 1005 ∧ c ≠ 1006 ∧ c ≠ 1015 := by
      have := h.2.2
      simp only [reservedCloseCodes, Bool.or_eq_false_iff, beq_eq_false_iff_ne, ne_eq] at this
      exact ⟨this.1.1.1, this.1.1.2, this.1.2, this.2⟩
    refine ⟨?_, ?_, ?_, ?_, ?_, ?_, ?_, ?_⟩
    · rw [hc]; exact h.1
    · rw [hc]; exact h.2.1
    · rw [hc]; exact hne.1
    · rw [hc]; exact hne.2.1
    · rw [hc]; exact hne.2.2.1
    · rw [hc]; exact hne.2.2.2
    · simp [hc]
    · intro hn; exact absurd ⟨h.1, h.2.1⟩ hn
  · have hc : getSafeCloseCode c = 1000 := by rw [getSafeCloseCode_def, if_neg h]
    refine ⟨?_, ?_, ?_, ?_, ?_, ?_, ?_, fun _ => hc⟩
    · rw [hc]
    · rw [hc]; decide
    · rw [hc]; decide
    · rw [hc]; decide
    · rw [hc]; decide
    · rw [hc]; decide
    · rw [hc]; decide

/-- Witness for C10: the out-of-range input 99999 maps to 1000. -/
theorem getSafeCloseCode_total_idempotent_witness :
    getSafeCloseCode 99999 = 1000 :=
  (getSafeCloseCode_total_idempotent 99999).2.2.2.2.2.2.2 (by decide)

/-- C7: in both directions, the frames written to the peer leg are
exactly the frames successfully read — same type tags, same payload
bytes, same order, nothing re-encoded or mutated. -/
theorem frames_relayed_unmodified (reads : List ReadResult) :
    clientFrameWrites (runUpstreamToClient reads) = successFrames reads ∧
    upstreamFrameWrites (runClientToUpstream reads) = successFrames reads := by
  constructor
  · induction reads with
    | nil => rfl
    | cons r rest ih =>
      cases r with
      | frame t d =>
        simpa [runUpstreamToClient, clientFrameWrites, successFrames] using ih
      | failure ce => rfl
  · induction reads with
    | nil => rfl
    | cons r rest ih =>
      cases r with
      | frame t d =>
        simpa [runClientToUpstream, upstreamFrameWrites, successFrames] using ih
      | failure ce => rfl

/-- C5: when the Deepgram dial fails, the handler writes exactly one
synthesized text envelope — with type "Error", a description, and code
"CONNECTION_FAILED" — then closes the client connection, removes it
from the registry, and returns after exactly one dial attempt (no
retry). -/
theorem dialFailure_error_frame (first : FirstFinisher) :
    (handleVoiceAgentBody false first).countP isClientTextWrite = 1 ∧
    (handleVoiceAgentBody false first).count (.writeClientText connectionFailedMsg) = 1 ∧
    connectionFailedMsg.etype = "Error" ∧
    connectionFailedMsg.description = "Failed to establish proxy connection" ∧
    connectionFailedMsg.code = "CONNECTION_FAILED" ∧
    (handleVoiceAgentBody false first).countP isDialAttempt = 1 ∧
    handleVoiceAgentBody false first =
      [.storeRegistry, .dialUpstream false,
       .writeClientText connectionFailedMsg, .closeClient, .deleteRegistry] := by
  cases first <;> exact ⟨rfl, rfl, rfl, rfl, rfl, rfl, rfl⟩

/-- Counterexample to C6: on the dial-failure run the client connection
was stored in the registry even though no successful dial ever
happened — insertion precedes the dial, it is not contingent on its
success. -/
theorem registry_store_without_successful_dial :
    Action.storeRegistry ∈ handleVoiceAgentBody false .clientFirst ∧
    Action.dialUpstream true ∉ handleVoiceAgentBody false .clientFirst := by
  decide

/-- C6 amended: the client connection is stored in the registry
immediately after the upgrade, before the dial is attempted; the store
happens exactly once, and every run (dial failure included) deletes the
entry exactly once. -/
theorem registry_store_order (dialOk : Bool) (first : FirstFinisher) :
    (handleVoiceAgentBody dialOk first).take 2 =
      [.storeRegistry, .dialUpstream dialOk] ∧
    (handleVoiceAgentBody dialOk first).count .storeRegistry = 1 ∧
    (handleVoiceAgentBody dialOk first).count .deleteRegistry = 1 := by
  cases dialOk <;> cases first <;> refine ⟨rfl, ?_, ?_⟩ <;> decide

/-- Counterexample to C4: the handler itself never closes the finishing
leg's connection — when Deepgram finishes first the Deepgram connection
gets no close call, and when the client finishes first the client
connection gets none, so "both underlying connections are closed
exactly once" fails as a property of the program's own actions. -/
theorem teardown_missing_finisher_close :
    (handleVoiceAgentBody true .deepgramFirst).count .closeUpstream = 0 ∧
    (handleVoiceAgentBody true .clientFirst).count .closeClient = 0 := by
  decide

/-- C4 amended: exactly one of the two shutdown branches executes per
session (first-finisher-wins over the two completion signals), the
registry entry is removed exactly once, and the executing branch closes
the opposite leg's connection exactly once — the finishing leg's own
connection is left to the peer, not closed by the handler. -/
theorem teardown_single_branch (first : FirstFinisher) :
    handleVoiceAgentBody true first =
      .storeRegistry :: .dialUpstream true :: (selectBranch first ++ [.deleteRegistry]) ∧
    (handleVoiceAgentBody true first).count .deleteRegistry = 1 ∧
    (handleVoiceAgentBody true first).count .closeUpstream =
      (if first = .clientFirst then 1 else 0) ∧
    (handleVoiceAgentBody true first).count .closeClient =
      (if first = .deepgramFirst then 1 else 0) ∧
    (handleVoiceAgentBody true first).count
        (.writeUpstreamClose closeNormalClosure "Client disconnected") =
      (if first = .clientFirst then 1 else 0) := by
  cases first <;> refine ⟨rfl, ?_, ?_, ?_, ?_⟩ <;> decide

/-- C2: `validateToken` succeeds iff the signature verifies under the
expected HMAC scheme against that secret and the current time is
strictly before the token's expiry; malformed input yields an error
(the embedding is a total function — no panic), and a token signed with
a different secret is rejected. -/
theorem validateToken_correct (ts : TokenString) (secret : Secret) (now : Nat) :
    (validateToken ts secret now = .ok () ↔
      ∃ t : SignedToken, ts = .wellFormed t ∧ isHMAC t.payload.alg = true ∧
        t.sig = macSign secret t.payload ∧ now < t.payload.claims.expiresAt) ∧
    (∀ raw : String, validateToken (.malformed raw) secret now = .error .malformedToken) ∧
    (∀ t : SignedToken, ∀ other : Secret, other ≠ secret →
      t.sig = macSign other t.payload →
      validateToken (.wellFormed t) secret now ≠ .ok ()) := by
  refine ⟨validateToken_ok_iff ts secret now, fun raw => rfl, ?_⟩
  intro t other hne hsig hok
  obtain ⟨t', heq, _, hsig', _⟩ := (validateToken_ok_iff (.wellFormed t) secret now).mp hok
  have ht : t = t' := by injection heq
  subst ht
  rw [hsig] at hsig'
  have : other = secret := congrArg MacTag.key hsig'
  exact hne this

/-- Witness for C2: a token over `samplePayload` signed with
`otherSecret` is rejected when checked against `sampleSecret`. -/
theorem validateToken_correct_witness :
    validateToken (.wellFormed forgedToken) sampleSecret 5 ≠ .ok () :=
  (validateToken_correct (.wellFormed forgedToken) sampleSecret 5).2.2 forgedToken
    otherSecret (by decide) rfl

/-- Counterexample to C3: the code does not stop at the first candidate
matching the lead-in convention. With a failing candidate first and a
valid one second, the spec's rule (`specAuth`) rejects the request, but
`handleVoiceAgentAuth` accepts and echoes the second candidate. -/
theorem auth_not_first_matching_candidate :
    firstMatchingCandidate [badCandidate, goodCandidate] = some badCandidate ∧
    validCandidate badCandidate sampleSecret 5 = false ∧
    specAuth [badCandidate, goodCandidate] sampleSecret 5 = .unauthorized ∧
    handleVoiceAgentAuth [badCandidate, goodCandidate] sampleSecret 5 =
      .upgraded goodCandidate := by
  decide

/-- C3 amended: the upgrade succeeds iff some candidate both matches
the lead-in convention and carries a token that validates; the accepted
candidate is the first such candidate (every earlier candidate either
lacks the lead-in or fails validation), and it is echoed back exactly;
otherwise the request is rejected with 401 and no connection is
created. -/
theorem wsAuth_first_valid (protocols : List Subprotocol) (secret : Secret) (now : Nat) :
    (handleVoiceAgentAuth protocols secret now = .unauthorized ↔
      ∀ p ∈ protocols, validCandidate p secret now = false) ∧
    (∀ p, handleVoiceAgentAuth protocols secret now = .upgraded p →
      validCandidate p secret now = true ∧
      ∃ pre post, protocols = pre ++ p :: post ∧
        ∀ q ∈ pre, validCandidate q secret now = false) := by
  induction protocols with
  | nil =>
    constructor
    · simp [handleVoiceAgentAuth, validateWsToken]
    · intro p hp
      simp [handleVoiceAgentAuth, validateWsToken] at hp
  | cons a rest ih =>
    by_cases ha : validCandidate a secret now = true
    · have hres : handleVoiceAgentAuth (a :: rest) secret now = .upgraded a := by
        simp [handleVoiceAgentAuth, validateWsToken, ha]
      constructor
      · rw [hres]
        constructor
        · intro h; exact absurd h (by simp)
        · intro hall
          have := hall a (List.mem_cons_self a rest)
          rw [ha] at this
          exact absurd this (by simp)
      · intro p hp
        rw [hres] at hp
        have hap : a = p := by injection hp
        subst hap
        refine ⟨ha, [], rest, rfl, ?_⟩
        intro q hq
        exact absurd hq (List.not_mem_nil q)
    · have haf : validCandidate a secret now = false := by
        cases hv : validCandidate a secret now
        · rfl
        · exact absurd hv ha
      have hres : handleVoiceAgentAuth (a :: rest) secret now =
          handleVoiceAgentAuth rest secret now := by
        simp [handleVoiceAgentAuth, validateWsToken, haf]
      constructor
      · rw [hres, ih.1]
        constructor
        · intro hall p hp
          rcases List.mem_cons.mp hp with hpa | hp'
          · rw [hpa]; exact haf
          · exact hall p hp'
        · intro hall p hp
          exact hall p (List.mem_cons_of_mem a hp)
      · intro p hp
        rw [hres] at hp
        obtain ⟨hv, pre, post, heq, hpre⟩ := ih.2 p hp
        refine ⟨hv, a :: pre, post, by rw [heq]; rfl, ?_⟩
        intro q hq
        rcases List.mem_cons.mp hq with hqa | hq'
        · rw [hqa]; exact haf
        · exact hpre q hq'

/-- Witness for C3 amended: on the counterexample input the accepted
candidate is `goodCandidate`, preceded only by failing candidates. -/
theorem wsAuth_first_valid_witness :
    validCandidate goodCandidate sampleSecret 5 = true ∧
    ∃ pre post, [badCandidate, goodCandidate] = pre ++ goodCandidate :: post ∧
      ∀ q ∈ pre, validCandidate q sampleSecret 5 = false :=
  (wsAuth_first_valid [badCandidate, goodCandidate] sampleSecret 5).2 goodCandidate
    (by decide)

/-- C8: `issueToken` signs an HS256 credential whose `issuedAt` is the
first clock read and whose `expiresAt` is the second clock read plus
the fixed one-hour expiry (3600 seconds); it succeeds, and its result
is exactly the signing backend's result, so it could only fail if the
backend failed. -/
theorem issueToken_claims (now1 now2 : Nat) (secret : Secret) :
    ∃ t : SignedToken,
      issueToken now1 now2 secret = .ok (.wellFormed t) ∧
      t.payload.claims.issuedAt = now1 ∧
      t.payload.claims.expiresAt = now2 + jwtExpiry ∧
      t.payload.alg = .HS256 ∧
      t.sig = macSign secret t.payload ∧
      jwtExpiry = 3600 ∧
      issueToken now1 now2 secret =
        signedString
          { alg := .HS256,
            claims := { issuedAt := now1, expiresAt := now2 + jwtExpiry } } secret :=
  ⟨⟨⟨.HS256, ⟨now1, now2 + jwtExpiry⟩⟩,
    macSign secret ⟨.HS256, ⟨now1, now2 + jwtExpiry⟩⟩⟩,
   rfl, rfl, rfl, rfl, rfl, rfl, rfl⟩

/-- Unfolding equation for `closeAllConnections` on a cons cell. -/
theorem closeAllConnections_cons (a : ConnId) (rest : List ConnId) :
    closeAllConnections (a :: rest) =
      ShutdownAction.writeConnClose a closeGoingAway "Server shutting down" ::
        ShutdownAction.closeConn a :: closeAllConnections rest :=
  rfl

/-- A connection absent from the registry receives no shutdown actions. -/
theorem closeAll_count_eq_zero (registry : List ConnId) (c : ConnId)
    (h : c ∉ registry) :
    (closeAllConnections registry).count
      (.writeConnClose c closeGoingAway "Server shutting down") = 0 ∧
    (closeAllConnections registry).count (.closeConn c) = 0 := by
  induction registry with
  | nil => exact ⟨rfl, rfl⟩
  | cons a rest ih =>
    have hca : c ≠ a := fun heq => h (heq ▸ List.mem_cons_self a rest)
    have hcr : c ∉ rest := fun hm => h (List.mem_cons_of_mem a hm)
    obtain ⟨ih1, ih2⟩ := ih hcr
    rw [closeAllConnections_cons]
    refine ⟨?_, ?_⟩ <;> simp [List.count_cons, ih1, ih2, hca]

/-- In a duplicate-free registry each connection receives exactly one
close-frame write and one close. -/
theorem closeAll_count_eq_one (registry : List ConnId) (c : ConnId)
    (hmem : c ∈ registry) (hnodup : registry.Nodup) :
    (closeAllConnections registry).count
      (.writeConnClose c closeGoingAway "Server shutting down") = 1 ∧
    (closeAllConnections registry).count (.closeConn c) = 1 := by
  induction registry with
  | nil => cases hmem
  | cons a rest ih =>
    rw [closeAllConnections_cons]
    rcases List.mem_cons.mp hmem with hca | hcr
    · subst hca
      have hnr : c ∉ rest := (List.nodup_cons.mp hnodup).1
      obtain ⟨z1, z2⟩ := closeAll_count_eq_zero rest c hnr
      refine ⟨?_, ?_⟩ <;> simp [List.count_cons, z1, z2]
    · have hca : c ≠ a := by
        intro heq
        subst heq
        exact (List.nodup_cons.mp hnodup).1 hcr
      obtain ⟨i1, i2⟩ := ih hcr (List.nodup_cons.mp hnodup).2
      refine ⟨?_, ?_⟩ <;> simp [List.count_cons, i1, i2, hca]

/-- Every registered connection's write-then-close pair occurs
contiguously somewhere in the broadcast. -/
theorem closeAll_split (registry : List ConnId) (c : ConnId) (hmem : c ∈ registry) :
    ∃ pre post, closeAllConnections registry =
      pre ++ ShutdownAction.writeConnClose c closeGoingAway "Server shutting down" ::
        ShutdownAction.closeConn c :: post := by
  induction registry with
  | nil => cases hmem
  | cons a rest ih =>
    rcases List.mem_cons.mp hmem with hca | hcr
    · subst hca
      exact ⟨[], closeAllConnections rest, by rw [closeAllConnections_cons]; rfl⟩
    · obtain ⟨pre, post, heq⟩ := ih hcr
      exact ⟨ShutdownAction.writeConnClose a closeGoingAway "Server shutting down" ::
        ShutdownAction.closeConn a :: pre, post,
        by rw [closeAllConnections_cons, heq]; rfl⟩

/-- C9: on shutdown, every registered live connection is sent exactly
one close frame with the going-away code (1001) and is then closed
exactly once, and the bounded `server.Shutdown` (10-second timeout for
in-flight handlers) is the final step. -/
theorem gracefulShutdown_per_connection (registry : List ConnId) (c : ConnId)
    (hmem : c ∈ registry) (hnodup : registry.Nodup) :
    (∃ pre post,
      gracefulShutdown registry =
        pre ++ ShutdownAction.writeConnClose c closeGoingAway "Server shutting down" ::
          ShutdownAction.closeConn c :: post) ∧
    (gracefulShutdown registry).count
      (.writeConnClose c closeGoingAway "Server shutting down") = 1 ∧
    (gracefulShutdown registry).count (.closeConn c) = 1 ∧
    (gracefulShutdown registry).getLast? = some (.serverShutdown 10) ∧
    closeGoingAway = 1001 := by
  obtain ⟨pre, post, heq⟩ := closeAll_split registry c hmem
  obtain ⟨c1, c2⟩ := closeAll_count_eq_one registry c hmem hnodup
  refine ⟨⟨pre, post ++ [.serverShutdown 10], ?_⟩, ?_, ?_, ?_, rfl⟩
  · unfold gracefulShutdown
    rw [heq]
    simp
  · unfold gracefulShutdown
    rw [List.count_append, c1]
    rfl
  · unfold gracefulShutdown
    rw [List.count_append, c2]
    rfl
  · unfold gracefulShutdown
    exact List.getLast?_concat _

/-- Witness for C9: a concrete two-connection registry, checked for the
connection with identity 9. -/
theorem gracefulShutdown_per_connection_witness :
    (∃ pre post,
      gracefulShutdown [5, 9] =
        pre ++ ShutdownAction.writeConnClose 9 closeGoingAway "Server shutting down" ::
          ShutdownAction.closeConn 9 :: post) ∧
    (gracefulShutdown [5, 9]).count
      (.writeConnClose 9 closeGoingAway "Server shutting down") = 1 ∧
    (gracefulShutdown [5, 9]).count (.closeConn 9) = 1 ∧
    (gracefulShutdown [5, 9]).getLast? = some (.serverShutdown 10) ∧
    closeGoingAway = 1001 :=
  gracefulShutdown_per_connection [5, 9] 9 (by decide) (by decide)

end VoiceAgent
